import Mathlib

/-!
Shallow embedding of the telegram-images-bot core (src/main.rs): the per-chat
session state (`UserState`), the message and command handlers, and the
stop-and-archive pipeline (`process_inner`).  External effects of the pipeline
(file-id resolution via get_file, HTTP fetch, document delivery) are supplied
by an explicit environment; filesystem effects are tracked in an explicit
filesystem state.  Outbound chat messages are modelled by tags (`Reply`),
one per distinct fixed message string in the source.
-/

/-- A Telegram photo variant: width, height and an opaque file id
(teloxide `PhotoSize`, the fields used by main.rs). -/
structure PhotoSize where
  width : Nat
  height : Nat
  fileId : String
deriving DecidableEq

/-- An inbound message: optional text and an optional list of photo variants
(the parts of teloxide `Message` that main.rs reads). -/
structure Msg where
  text : Option String
  photo : Option (List PhotoSize)
deriving DecidableEq

/-- Per-chat session state, mirroring `struct UserState` in main.rs. -/
structure UserState where
  is_collecting : Bool
  is_set_file_name : Bool
  messages : List Msg
  file_name : Option String
deriving DecidableEq

/-- `UserState::default()` — the state created lazily by `entry(..).or_default()`. -/
def initUserState : UserState :=
  { is_collecting := false, is_set_file_name := false, messages := [], file_name := none }

/-- The key used by photo selection: `p.height * p.width` (main.rs line 264).
The teloxide fields are u32, so the Rust product is computed in u32 and wraps
on overflow: the key is the product reduced modulo 2^32. -/
def photoKey (p : PhotoSize) : Nat := p.height * p.width % 2 ^ 32

/-- One comparison step of Rust `Iterator::max_by_key`: the accumulator is kept
only when its key is strictly greater, so a later element wins ties. -/
def maxStep (a b : PhotoSize) : PhotoSize := if photoKey a > photoKey b then a else b

/-- `photos.iter().max_by_key(|p| p.height * p.width)` from main.rs line 264. -/
def largestPhoto : List PhotoSize → Option PhotoSize
  | [] => none
  | x :: xs => some (xs.foldl maxStep x)

/-- Tags for the fixed outbound chat messages sent by main.rs. -/
inductive Reply where
  /-- "🤔 你还没有开始收集，请先发送 /startcollect。" -/
  | notCollecting
  /-- "ℹ️ 你没有发送任何消息，无需处理。" -/
  | noMessages
  /-- "⏳ 正在处理，请稍候..." -/
  | processing
  /-- "🤷‍♀️ 在你发送的消息中没有找到任何图片。" -/
  | noPhotos
  /-- "✅ 处理完成！共下载 n 张图片，正在发送压缩包..." -/
  | doneCount (n : Nat)
  /-- "❌ 文件名不能为空" -/
  | fileNameEmpty
  /-- "✅已设置文件名为 base.zip" -/
  | fileNameSet (base : String)
deriving DecidableEq

/-- `start_collecting` (main.rs lines 186-204): unconditionally enter
collecting mode and clear the buffer. -/
def start_collecting (s : UserState) : UserState :=
  { s with is_collecting := true, messages := [] }

/-- `start_set_file_name` (main.rs lines 176-184): mark the session as
awaiting a file name; nothing else changes. -/
def start_set_file_name (s : UserState) : UserState :=
  { s with is_set_file_name := true }

/-- `handle_message` (main.rs lines 104-140): while collecting, append the
message to the buffer; otherwise, while awaiting a file name, reject empty
text (`msg.text().unwrap_or_default()` — note: no trimming) or store the text
as the file name and clear the awaiting flag; otherwise ignore. -/
def handle_message (s : UserState) (m : Msg) : UserState × Option Reply :=
  if s.is_collecting then
    ({ s with messages := s.messages ++ [m] }, none)
  else if s.is_set_file_name then
    let file_name := m.text.getD ""
    if file_name = "" then
      (s, some Reply.fileNameEmpty)
    else
      ({ s with file_name := some file_name, is_set_file_name := false },
       some (Reply.fileNameSet file_name))
  else
    (s, none)

/-- The locked section of `process_inner` (main.rs lines 226-247): if not
collecting, leave the state alone and hand over no batch; otherwise flip to
idle, `std::mem::take` the buffer and `Option::take` the file name, returning
both as the batch. -/
def stop_take (s : UserState) : UserState × Option (List Msg × Option String) :=
  if s.is_collecting then
    ({ s with is_collecting := false, messages := [], file_name := none },
     some (s.messages, s.file_name))
  else
    (s, none)

/-- The session-level operations reachable from the dispatcher: the three
commands that touch state, and a plain inbound message. -/
inductive SessionOp where
  | startCollect
  | stopCollect
  | setFileNameCmd
  | message (m : Msg)

/-- The state component of dispatching one operation.  Each operation runs
under the session-store lock, so operations on one chat are atomic and
serialized. -/
def dispatch (s : UserState) : SessionOp → UserState
  | SessionOp.startCollect => start_collecting s
  | SessionOp.stopCollect => (stop_take s).1
  | SessionOp.setFileNameCmd => start_set_file_name s
  | SessionOp.message m => (handle_message s m).1

/-- The session state reached from a fresh (default) session by a sequence of
operations. -/
def runOps (ops : List SessionOp) : UserState := ops.foldl dispatch initUserState

/-- Filesystem footprint of one pipeline run.  `dirCreated` / `zipCreated`
are sticky "was ever created" flags; the `Exists` flags give existence at the
end of the run. -/
structure FsState where
  dirCreated : Bool := false
  tempDirExists : Bool := false
  tempFiles : List (String × List Nat) := []
  zipCreated : Bool := false
  zipExists : Bool := false
  zipName : Option String := none
  zipEntries : List (String × List Nat) := []
deriving DecidableEq

/-- External effects available to the pipeline: `bot.get_file` (file id to
path, fallible), HTTP fetch of one url (bytes, fallible — a failure is the
`unwrap` panic inside the spawned download task), and whether
`bot.send_document` succeeds. -/
structure FetchEnv where
  resolve : String → Except String String
  fetch : String → Except String (List Nat)
  deliverOk : Bool

/-- The zip file name (main.rs lines 281-286): the user-supplied base name
with ".zip", or a synthesized `images_<now>_<chat id>.zip` when none is set. -/
def zip_filename (file_name : Option String) (now : String) (cid : Int) : String :=
  match file_name with
  | none => "images_" ++ now ++ "_" ++ toString cid ++ ".zip"
  | some base => base ++ ".zip"

/-- The url-extraction loop (main.rs lines 261-270): for each message with a
photo list, select the largest variant, resolve its file id via `get_file`
(an error aborts the loop through `?`), build the download url. -/
def resolvePhotos (env : FetchEnv) (token : String) : List Msg → Except String (List String)
  | [] => Except.ok []
  | m :: rest =>
    match m.photo.bind largestPhoto with
    | none => resolvePhotos env token rest
    | some p =>
      match env.resolve p.fileId with
      | Except.error e => Except.error e
      | Except.ok path =>
        match resolvePhotos env token rest with
        | Except.error e => Except.error e
        | Except.ok urls =>
          Except.ok (("https://api.telegram.org/file/bot" ++ token ++ "/" ++ path) :: urls)

/-- The concurrent download block (main.rs lines 291-306): one task per url
writes `image_<i+1>.jpg`; a failing task panics on `unwrap`, so its file is
never written, and because the `join_all` results are discarded the failure
is swallowed and the pipeline continues with the files that were written. -/
def fetchAll (env : FetchEnv) (urls : List String) : List (String × List Nat) :=
  urls.enum.filterMap fun p =>
    match env.fetch p.2 with
    | Except.ok bytes => some ("image_" ++ toString (p.1 + 1) ++ ".jpg", bytes)
    | Except.error _ => none

/-- Observable outcome of one pipeline run: final filesystem state, the text
messages sent, the documents delivered (each a list of archive entries), and
the `Result` returned by `process_inner`. -/
structure PipelineOut where
  fs : FsState
  sent : List Reply
  delivered : List (List (String × List Nat))
  result : Except String Unit

/-- The pipeline part of `process_inner` after the batch has been taken
(main.rs lines 249-335): empty-batch report, url resolution (a resolution
error propagates through `?` before anything is staged), no-photo report,
scratch-directory creation, concurrent downloads, zip creation over the
staged files, the completion message citing the resolved-url count, delivery,
and cleanup — which is reached only when delivery succeeded, because
`send_document(..).await?` returns early on failure. -/
def run_pipeline (env : FetchEnv) (token : String) (cid : Int) (now : String)
    (messages_to_process : List Msg) (file_name : Option String) : PipelineOut :=
  if messages_to_process.isEmpty then
    { fs := {}, sent := [Reply.noMessages], delivered := [], result := Except.ok () }
  else
    match resolvePhotos env token messages_to_process with
    | Except.error e =>
      { fs := {}, sent := [Reply.processing], delivered := [], result := Except.error e }
    | Except.ok photo_urls =>
      if photo_urls.isEmpty then
        { fs := {}, sent := [Reply.processing, Reply.noPhotos], delivered := [],
          result := Except.ok () }
      else
        let zipN := zip_filename file_name now cid
        let files := fetchAll env photo_urls
        let staged : FsState :=
          { dirCreated := true, tempDirExists := true, tempFiles := files,
            zipCreated := true, zipExists := true, zipName := some zipN,
            zipEntries := files }
        if env.deliverOk then
          { fs := { staged with tempDirExists := false, tempFiles := [], zipExists := false },
            sent := [Reply.processing, Reply.doneCount photo_urls.length],
            delivered := [files],
            result := Except.ok () }
        else
          { fs := staged,
            sent := [Reply.processing, Reply.doneCount photo_urls.length],
            delivered := [],
            result := Except.error "delivery failed" }

/-- `process_inner` (main.rs lines 220-336): under the lock, bail out with the
not-collecting report when the session is idle; otherwise take the batch and
run the pipeline on it. -/
def process_inner (env : FetchEnv) (token : String) (cid : Int) (now : String)
    (s : UserState) : UserState × PipelineOut :=
  match stop_take s with
  | (s1, none) =>
    (s1, { fs := {}, sent := [Reply.notCollecting], delivered := [], result := Except.ok () })
  | (s1, some (ms, fn)) => (s1, run_pipeline env token cid now ms fn)

/-- Concrete photo variant 200×50 (product 10000), first in the tie pair. -/
def pA : PhotoSize := { width := 200, height := 50, fileId := "a" }

/-- Concrete photo variant 50×200 (product 10000), second in the tie pair. -/
def pB : PhotoSize := { width := 50, height := 200, fileId := "b" }

/-- A message carrying one 100×100 photo with the given file id. -/
def msgPhoto (fid : String) : Msg :=
  { text := none, photo := some [{ width := 100, height := 100, fileId := fid }] }

/-- A plain text message. -/
def msgText (t : String) : Msg := { text := some t, photo := none }

/-- Environment in which resolution, fetch and delivery all succeed. -/
def envAllOk : FetchEnv :=
  { resolve := fun fid => Except.ok fid
  , fetch := fun _ => Except.ok [7]
  , deliverOk := true }

/-- Environment in which resolution and fetch succeed but delivery fails. -/
def envNoDeliver : FetchEnv :=
  { resolve := fun fid => Except.ok fid
  , fetch := fun _ => Except.ok [7]
  , deliverOk := false }

/-- Environment in which the fetch of the first photo's url fails and every
other fetch succeeds; delivery succeeds. -/
def envFetchFail1 : FetchEnv :=
  { resolve := fun fid => Except.ok fid
  , fetch := fun url =>
      if url = "https://api.telegram.org/file/bottok/f1" then Except.error "http error"
      else Except.ok [9]
  , deliverOk := true }

/-- The fold of `maxStep` returns its accumulator or a list element. -/
theorem foldl_maxStep_mem (xs : List PhotoSize) (a : PhotoSize) :
    xs.foldl maxStep a = a ∨ xs.foldl maxStep a ∈ xs := by
  induction xs generalizing a with
  | nil => exact Or.inl rfl
  | cons y ys ih =>
    simp only [List.foldl_cons]
    rcases ih (maxStep a y) with h | h
    · rw [h]
      by_cases hk : photoKey a > photoKey y
      · exact Or.inl (by simp [maxStep, hk])
      · exact Or.inr (by simp [maxStep, hk])
    · exact Or.inr (List.mem_cons_of_mem y h)

/-- The fold of `maxStep` never decreases the key of the accumulator. -/
theorem photoKey_le_foldl (xs : List PhotoSize) (a : PhotoSize) :
    photoKey a ≤ photoKey (xs.foldl maxStep a) := by
  induction xs generalizing a with
  | nil => exact le_refl _
  | cons y ys ih =>
    simp only [List.foldl_cons]
    refine le_trans ?_ (ih (maxStep a y))
    by_cases hk : photoKey a > photoKey y
    · simp [maxStep, hk]
    · simp only [maxStep, if_neg hk]
      push_neg at hk
      exact hk

/-- The fold of `maxStep` dominates the key of every list element. -/
theorem photoKey_mem_le_foldl (xs : List PhotoSize) (a q : PhotoSize) (hq : q ∈ xs) :
    photoKey q ≤ photoKey (xs.foldl maxStep a) := by
  induction xs generalizing a with
  | nil => cases hq
  | cons y ys ih =>
    simp only [List.foldl_cons]
    rcases List.mem_cons.mp hq with h | h
    · subst h
      refine le_trans ?_ (photoKey_le_foldl ys (maxStep a q))
      by_cases hk : photoKey a > photoKey q
      · simp only [maxStep, if_pos hk]
        exact Nat.le_of_lt hk
      · simp [maxStep, hk]
    · exact ih (maxStep a y) h

/-- When the final element's key dominates the accumulator and every earlier
element, the fold of `maxStep` returns that final element: ties go to the
later element. -/
theorem foldl_maxStep_last (xs : List PhotoSize) (a x : PhotoSize)
    (ha : photoKey a ≤ photoKey x) (hxs : ∀ y ∈ xs, photoKey y ≤ photoKey x) :
    (xs ++ [x]).foldl maxStep a = x := by
  rw [List.foldl_append]
  have hr : photoKey (xs.foldl maxStep a) ≤ photoKey x := by
    rcases foldl_maxStep_mem xs a with h | h
    · rw [h]; exact ha
    · exact hxs _ h
  show maxStep (xs.foldl maxStep a) x = x
  simp only [maxStep, if_neg (not_lt.mpr hr)]

/-- Claim C1 (amended): the selected Photo Reference maximizes the u32
product `height * width` — the product the code computes, which wraps modulo
2^32 on overflow and coincides with the true `width * height` whenever that
product fits in u32 — and when two or more variants tie on that key the
LAST-encountered variant in the list is chosen (Rust `max_by_key` keeps the
later of two equal-key elements), not the first-encountered one. -/
theorem C1_largest_photo_amended :
    (∀ (ps : List PhotoSize) (p : PhotoSize), largestPhoto ps = some p →
      p ∈ ps ∧ ∀ q ∈ ps, photoKey q ≤ photoKey p) ∧
    (∀ (xs : List PhotoSize) (x : PhotoSize), (∀ y ∈ xs, photoKey y ≤ photoKey x) →
      largestPhoto (xs ++ [x]) = some x) := by
  constructor
  · intro ps p hp
    cases ps with
    | nil => cases hp
    | cons h t =>
      simp only [largestPhoto, Option.some.injEq] at hp
      subst hp
      constructor
      · rcases foldl_maxStep_mem t h with h1 | h1
        · rw [h1]; exact List.mem_cons_self _ _
        · exact List.mem_cons_of_mem _ h1
      · intro q hq
        rcases List.mem_cons.mp hq with h2 | h2
        · subst h2
          exact photoKey_le_foldl t q
        · exact photoKey_mem_le_foldl t h q h2
  · intro xs x hx
    cases xs with
    | nil => rfl
    | cons h t =>
      simp only [List.cons_append, largestPhoto, Option.some.injEq]
      exact foldl_maxStep_last t h x (hx h (List.mem_cons_self _ _))
        (fun y hy => hx y (List.mem_cons_of_mem _ hy))

/-- Witness for C1 (amended): with pA before pB and every earlier key at most
pB's key, the code selects pB, the last-encountered variant. -/
theorem C1_largest_photo_amended_witness :
    largestPhoto ([pA] ++ [pB]) = some pB :=
  C1_largest_photo_amended.2 [pA] pB (by decide)

/-- Counterexample to C1 as stated: pA (200×50) and pB (50×200) tie on
`width * height`, pA is first-encountered, yet the code selects pB — the
first-encountered tie-break claimed by the spec does not hold. -/
theorem C1_tie_break_counterexample :
    largestPhoto [pA, pB] = some pB ∧ pA ≠ pB ∧ photoKey pA = photoKey pB := by
  decide

/-- Claim C2 (amended): once the pipeline reaches delivery and delivery
succeeds, cleanup removes the scratch directory, its files, and the archive
file; the paths that stop earlier (empty batch, resolution failure, no
photos) never create them.  (The counterexample shows the claimed
every-exit-path cleanup fails when delivery fails.) -/
theorem C2_cleanup_amended (env : FetchEnv) (token : String) (cid : Int) (now : String)
    (ms : List Msg) (fn : Option String) (h : env.deliverOk = true) :
    (run_pipeline env token cid now ms fn).fs.tempDirExists = false ∧
    (run_pipeline env token cid now ms fn).fs.tempFiles = [] ∧
    (run_pipeline env token cid now ms fn).fs.zipExists = false := by
  unfold run_pipeline
  by_cases he : ms.isEmpty
  · simp [he]
  · simp only [he, if_false, Bool.false_eq_true]
    cases hr : resolvePhotos env token ms with
    | error e => exact ⟨rfl, rfl, rfl⟩
    | ok photo_urls =>
      by_cases hu : photo_urls.isEmpty
      · simp [hu]
      · simp [hu, h]

/-- Witness for C2 (amended): a concrete successful run over one photo
message leaves neither the scratch directory nor the archive behind. -/
theorem C2_cleanup_amended_witness :
    (run_pipeline envAllOk "tok" 5 "now" [msgPhoto "f1"] none).fs.tempDirExists = false ∧
    (run_pipeline envAllOk "tok" 5 "now" [msgPhoto "f1"] none).fs.tempFiles = [] ∧
    (run_pipeline envAllOk "tok" 5 "now" [msgPhoto "f1"] none).fs.zipExists = false :=
  C2_cleanup_amended envAllOk "tok" 5 "now" [msgPhoto "f1"] none rfl

/-- Counterexample to C2 as stated: with one staged photo and a failing
delivery, `send_document(..).await?` returns before the cleanup statements
run, so both the scratch directory and the archive file remain on the
filesystem — cleanup is NOT executed on the delivery-failure exit path. -/
theorem C2_cleanup_counterexample :
    (run_pipeline envNoDeliver "tok" 5 "now" [msgPhoto "f1"] none).fs.tempDirExists = true ∧
    (run_pipeline envNoDeliver "tok" 5 "now" [msgPhoto "f1"] none).fs.zipExists = true ∧
    (run_pipeline envNoDeliver "tok" 5 "now" [msgPhoto "f1"] none).result
      = Except.error "delivery failed" :=
  ⟨rfl, rfl, rfl⟩

/-- Claim C3, code behavior at the failing input: two photo messages, the
HTTP fetch of the first photo fails (the `unwrap` panic dies inside its
spawned task and the discarded `join_all` results swallow it).  The pipeline
does not abort: it reports success citing 2 photos, delivers an archive
containing only `image_2.jpg`, and returns Ok — a partial archive is
delivered, contradicting the claimed fail-fast with no partial delivery. -/
theorem C3_swallowed_fetch_failure :
    (run_pipeline envFetchFail1 "tok" 9 "now" [msgPhoto "f1", msgPhoto "f2"] none).delivered
      = [[("image_2.jpg", [9])]] ∧
    (run_pipeline envFetchFail1 "tok" 9 "now" [msgPhoto "f1", msgPhoto "f2"] none).sent
      = [Reply.processing, Reply.doneCount 2] ∧
    (run_pipeline envFetchFail1 "tok" 9 "now" [msgPhoto "f1", msgPhoto "f2"] none).result
      = Except.ok () :=
  ⟨rfl, rfl, rfl⟩

/-- Counterexample to C4 as stated: from a fresh session, StartCollecting
followed by SetFileNameRequested reaches a state that is simultaneously
Collecting and AwaitingFileName — neither operation clears the other flag. -/
theorem C4_counterexample :
    (runOps [SessionOp.startCollect, SessionOp.setFileNameCmd]).is_collecting = true ∧
    (runOps [SessionOp.startCollect, SessionOp.setFileNameCmd]).is_set_file_name = true := by
  decide

/-- Claim C4 (amended): the Collecting and AwaitingFileName flags are
independent and a session can hold both at once; while Collecting, every
inbound message is appended to the buffer and the AwaitingFileName handler
never runs (the collecting branch is checked first), so the joint state is
benign: collection takes precedence. -/
theorem C4_amended (s : UserState) (m : Msg) (h : s.is_collecting = true) :
    handle_message s m = ({ s with messages := s.messages ++ [m] }, none) := by
  simp [handle_message, h]

/-- Witness for C4 (amended): in the joint Collecting-and-AwaitingFileName
state, a text message is buffered, not consumed as a file name. -/
theorem C4_amended_witness :
    handle_message { initUserState with is_collecting := true, is_set_file_name := true }
        (msgText "x")
      = ({ initUserState with
            is_collecting := true
            is_set_file_name := true
            messages := [msgText "x"] }, none) :=
  C4_amended _ _ rfl

/-- Claim C5: Stop on a Collecting session flips the mode to idle, empties
the buffer, clears the stored name, and hands over a batch holding exactly
the buffered messages in order together with the stored name.  Because the
whole take runs inside one critical section of the session-store lock (one
atomic step of the embedding), any concurrent StartCollecting or append on
the same chat is serialized entirely before or after it, so the batch equals
the buffer at the linearization point: no message is lost or duplicated. -/
theorem C5_stop_takes_batch (s : UserState) (h : s.is_collecting = true) :
    stop_take s = ({ s with is_collecting := false, messages := [], file_name := none },
      some (s.messages, s.file_name)) := by
  simp [stop_take, h]

/-- Witness for C5: a concrete collecting session with two buffered messages
and a stored name hands over exactly those two messages and that name. -/
theorem C5_stop_takes_batch_witness :
    stop_take
        { is_collecting := true
          is_set_file_name := false
          messages := [msgText "a", msgText "b"]
          file_name := some "n" }
      = ({ is_collecting := false
           is_set_file_name := false
           messages := []
           file_name := none },
         some ([msgText "a", msgText "b"], some "n")) :=
  C5_stop_takes_batch _ rfl

/-- Claim C6: Stop on a session that is not collecting reports the
not-collecting condition and changes nothing: the returned session state is
the input state (buffer, mode and stored archive name all unchanged), no
filesystem activity happens, and the run returns Ok. -/
theorem C6_stop_not_collecting (env : FetchEnv) (token : String) (cid : Int) (now : String)
    (s : UserState) (h : s.is_collecting = false) :
    process_inner env token cid now s =
      (s, { fs := {}
            sent := [Reply.notCollecting]
            delivered := []
            result := Except.ok () }) := by
  unfold process_inner
  rw [show stop_take s = (s, none) from by simp [stop_take, h]]

/-- Witness for C6: Stop on a fresh idle session is a pure no-op with the
not-collecting report. -/
theorem C6_stop_not_collecting_witness :
    process_inner envAllOk "tok" 1 "now" initUserState =
      (initUserState, { fs := {}
                        sent := [Reply.notCollecting]
                        delivered := []
                        result := Except.ok () }) :=
  C6_stop_not_collecting envAllOk "tok" 1 "now" initUserState rfl

/-- Claim C7: StartCollecting unconditionally sets Collecting and clears the
buffer for every prior state: the result never depends on the previously
buffered messages (so they are unrecoverable), a second call still leaves an
empty buffer, and the other fields (stored name, awaiting-name flag) are
untouched; the operation is total, with no error conditions. -/
theorem C7_start_collecting_unconditional (s : UserState) (ms : List Msg) :
    (start_collecting s).is_collecting = true ∧
    (start_collecting s).messages = [] ∧
    start_collecting { s with messages := ms } = start_collecting s ∧
    (start_collecting (start_collecting s)).messages.length = 0 ∧
    (start_collecting s).file_name = s.file_name ∧
    (start_collecting s).is_set_file_name = s.is_set_file_name := by
  cases s
  exact ⟨rfl, rfl, rfl, rfl, rfl, rfl⟩

/-- Claim C8 (amended): while AwaitingFileName (and not Collecting), a text
that is empty WITHOUT TRIMMING — the code tests `file_name.is_empty()` on the
untrimmed text — is rejected with the error reply and no state change, and
any non-empty text, including whitespace-only text, is stored as the archive
name with the awaiting flag cleared. -/
theorem C8_receive_file_name_amended (s : UserState) (m : Msg)
    (hc : s.is_collecting = false) (hf : s.is_set_file_name = true) :
    (m.text.getD "" = "" → handle_message s m = (s, some Reply.fileNameEmpty)) ∧
    (m.text.getD "" ≠ "" →
      handle_message s m =
        ({ s with file_name := some (m.text.getD ""), is_set_file_name := false },
         some (Reply.fileNameSet (m.text.getD "")))) := by
  constructor
  · intro he
    simp [handle_message, hc, hf, he]
  · intro he
    simp [handle_message, hc, hf, he]

/-- Witness for C8 (amended): the non-empty text "pics" is stored as the name
and the awaiting flag is cleared. -/
theorem C8_receive_file_name_amended_witness :
    handle_message { initUserState with is_set_file_name := true } (msgText "pics")
      = ({ initUserState with is_set_file_name := false, file_name := some "pics" },
         some (Reply.fileNameSet "pics")) :=
  (C8_receive_file_name_amended _ _ rfl rfl).2 (by decide)

/-- Counterexample to C8 as stated: the text " " consists only of whitespace,
so it is empty after trimming, yet the code accepts it — it is stored as the
archive name and AwaitingFileName is cleared, contradicting the claimed
rejection with no state change. -/
theorem C8_counterexample :
    (handle_message { initUserState with is_set_file_name := true } (msgText " ")).1.file_name
        = some " " ∧
    (handle_message { initUserState with
        is_set_file_name := true } (msgText " ")).1.is_set_file_name = false ∧
    " ".toList.all Char.isWhitespace = true :=
  ⟨rfl, rfl, by decide⟩

/-- Helper for C9: when no message in the batch carries a selectable photo,
the url-extraction loop yields the empty url list without touching the
environment. -/
theorem resolvePhotos_none (env : FetchEnv) (token : String) (ms : List Msg)
    (h : ∀ m ∈ ms, m.photo.bind largestPhoto = none) :
    resolvePhotos env token ms = Except.ok [] := by
  induction ms with
  | nil => rfl
  | cons m rest ih =>
    have hm := h m (List.mem_cons_self _ _)
    simp only [resolvePhotos, hm]
    exact ih (fun x hx => h x (List.mem_cons_of_mem _ hx))

/-- Claim C9: a batch yielding zero resolvable photos (including the empty
batch) is reported to the conversation and the pipeline terminates normally
with neither the scratch directory nor the archive file ever created. -/
theorem C9_no_photos_no_fs (env : FetchEnv) (token : String) (cid : Int) (now : String)
    (ms : List Msg) (fn : Option String)
    (h : ∀ m ∈ ms, m.photo.bind largestPhoto = none) :
    (run_pipeline env token cid now ms fn).fs.dirCreated = false ∧
    (run_pipeline env token cid now ms fn).fs.zipCreated = false ∧
    (run_pipeline env token cid now ms fn).result = Except.ok () ∧
    ((run_pipeline env token cid now ms fn).sent = [Reply.noMessages] ∨
     (run_pipeline env token cid now ms fn).sent = [Reply.processing, Reply.noPhotos]) := by
  by_cases he : ms.isEmpty
  · simp [run_pipeline, he]
  · have hr := resolvePhotos_none env token ms h
    simp [run_pipeline, he, hr]

/-- Witness for C9: a batch holding one photo-free text message is reported
and leaves the filesystem untouched. -/
theorem C9_no_photos_no_fs_witness :
    (run_pipeline envAllOk "tok" 1 "now" [msgText "hello"] none).fs.dirCreated = false ∧
    (run_pipeline envAllOk "tok" 1 "now" [msgText "hello"] none).fs.zipCreated = false ∧
    (run_pipeline envAllOk "tok" 1 "now" [msgText "hello"] none).result = Except.ok () ∧
    ((run_pipeline envAllOk "tok" 1 "now" [msgText "hello"] none).sent = [Reply.noMessages] ∨
     (run_pipeline envAllOk "tok" 1 "now" [msgText "hello"] none).sent
        = [Reply.processing, Reply.noPhotos]) :=
  C9_no_photos_no_fs envAllOk "tok" 1 "now" [msgText "hello"] none (by decide)

/-- Helper for C10: while collecting, folding inbound messages through the
message handler appends them all, in order, and changes nothing else. -/
theorem collect_append (ms : List Msg) (t : UserState) (h : t.is_collecting = true) :
    ms.foldl (fun u m => (handle_message u m).1) t = { t with messages := t.messages ++ ms } := by
  induction ms generalizing t with
  | nil => cases t; simp
  | cons m rest ih =>
    simp only [List.foldl_cons]
    rw [show (handle_message t m).1 = { t with messages := t.messages ++ [m] } from by
      simp [handle_message, h]]
    rw [ih { t with messages := t.messages ++ [m] } h]
    cases t
    simp

/-- Claim C10: a successful Stop consumes the stored archive name one-shot:
the post-Stop session has no stored name, and a following full cycle
(StartCollecting, appending any messages, Stop) that sets no new name hands
over a batch whose name component is `none`, for which the zip filename falls
back to the synthesized timestamp-based `images_<now>_<chat id>.zip`. -/
theorem C10_one_shot_name (s : UserState) (h : s.is_collecting = true) :
    (stop_take s).1.file_name = none ∧
    ∀ (ms : List Msg) (now : String) (cid : Int),
      (stop_take (ms.foldl (fun u m => (handle_message u m).1)
          (start_collecting (stop_take s).1))).2 = some (ms, none) ∧
      zip_filename none now cid = "images_" ++ now ++ "_" ++ toString cid ++ ".zip" := by
  have h1 : (stop_take s).1
      = { s with is_collecting := false, messages := [], file_name := none } := by
    simp [stop_take, h]
  constructor
  · rw [h1]
  · intro ms now cid
    refine ⟨?_, rfl⟩
    rw [h1, collect_append ms _ rfl]
    simp [stop_take, start_collecting]

/-- Witness for C10: after stopping a collecting session that holds the name
"custom", the stored name is gone, and the synthesized fallback filename has
the documented shape. -/
theorem C10_one_shot_name_witness :
    (stop_take
        { is_collecting := true
          is_set_file_name := false
          messages := [msgText "a"]
          file_name := some "custom" }).1.file_name = none ∧
    zip_filename none "2024-01-01:00:00" 42
      = "images_" ++ "2024-01-01:00:00" ++ "_" ++ toString (42 : Int) ++ ".zip" :=
  ⟨(C10_one_shot_name
      { is_collecting := true
        is_set_file_name := false
        messages := [msgText "a"]
        file_name := some "custom" } rfl).1,
   ((C10_one_shot_name
      { is_collecting := true
        is_set_file_name := false
        messages := [msgText "a"]
        file_name := some "custom" } rfl).2 [] "2024-01-01:00:00" 42).2⟩
